import Mathlib

/-!
Verification development for the freelancer-earnings NL-to-SQL pipeline
(`src/cli.py`, `src/llm.py`, `src/db.py`).

The pipeline is embedded shallowly: the external collaborators (the
language model, the SQLite store, the audit log file) are abstracted by an
`Oracle` that records their outcomes, and each entry point is embedded as a
function from the oracle and the question to the list of observable events
it performs, mirroring the control flow of the Python source line by line.
String inspection is embedded at the character-list level: `pyStrip`
models Python `str.strip()` (default whitespace set) and `pyLower` models
`str.lower()` via `Char.toLower` (which lowers the ASCII range — faithful
on the ASCII keywords and separator the validator inspects).
-/

namespace Pipeline

/-- The default whitespace set stripped by Python `str.strip()`
(ASCII part). -/
def isSpaceChar (c : Char) : Bool :=
  c = ' ' || c = '\t' || c = '\n' || c = '\r' || c = '\x0b' || c = '\x0c'

/-- Strip `isSpaceChar` characters from both ends of a character list. -/
def stripChars (l : List Char) : List Char :=
  ((l.dropWhile isSpaceChar).reverse.dropWhile isSpaceChar).reverse

/-- Model of Python `s.strip()`. -/
def pyStrip (s : String) : String := ⟨stripChars s.data⟩

/-- Model of Python `s.lower()` (ASCII range). -/
def pyLower (s : String) : String := ⟨s.data.map Char.toLower⟩

/-- Outcome of one structured language-model call
(`GeminiLLMClient._generate_content_with_schema`):
`ok s` — the call succeeded and the parsed structured response carried the
string field `s`; `malformed` — the call succeeded but the parsed response
was unusable (attribute access on it raises); `err` — the call itself
raised. -/
inductive ModelOutcome where
  | ok (s : String)
  | malformed
  | err
deriving DecidableEq, Repr

/-- User-visible output lines, one constructor per `click.echo` call site of
`src/cli.py`. `emptyMsg` is the blank-input message
(`Вопрос не должен быть пустым.`), `informalMsg`/`helpMsg`/`unknownMsg`
are the three canned intent responses, `invalidSqlMsg` is
`Ошибка: сгенерирован некорректный SQL-запрос.`, `errorMsg e` is the
generic handler output `Ошибка: {e}`, `sqlText s` is the `ask` echo
`SQL: {s}`, `resultText r` is `Результат: {r}`, `answerText r` is
`Ответ: {r}`, and `questionText q` is the demo echo `Вопрос: {q}`. -/
inductive Out where
  | emptyMsg
  | informalMsg
  | helpMsg
  | unknownMsg
  | invalidSqlMsg
  | errorMsg (e : String)
  | sqlText (s : String)
  | resultText (r : String)
  | answerText (r : String)
  | questionText (q : String)
deriving DecidableEq, Repr

/-- Observable events of a pipeline run, in order:
`modelIntent q` — the model call made by `detect_intent`;
`modelGen q` — the model call made by `generate_sql`;
`schemaFetch` — the store round-trip of `get_table_schema_str`;
`auditIntent q i` / `auditSql q s` — appends to the `llm_results.log`
audit log; `dryRun s` — the `EXPLAIN` store round-trip of `validate_sql`;
`exec s` — the `query_db` store round-trip executing `s`;
`out o` — a `click.echo`. -/
inductive Ev where
  | modelIntent (q : String)
  | modelGen (q : String)
  | schemaFetch
  | auditIntent (q i : String)
  | auditSql (q s : String)
  | dryRun (s : String)
  | exec (s : String)
  | out (o : Out)
deriving DecidableEq, Repr

/-- `true` exactly on the events that are a language-model call or a store
round-trip (`modelIntent`, `modelGen`, `schemaFetch`, `dryRun`, `exec`). -/
def Ev.isExternalCall : Ev → Bool
  | .modelIntent _ => true
  | .modelGen _ => true
  | .schemaFetch => true
  | .dryRun _ => true
  | .exec _ => true
  | _ => false

/-- Abstraction of the external collaborators: `intent q` and `gen q` are
the outcomes of the two structured model calls for question `q`;
`schemaOk` is whether `get_table_schema_str` succeeds (`schemaErr` its
exception text otherwise); `dryRunOk s` is whether `EXPLAIN s` succeeds;
`execOk s` is whether `query_db s` succeeds, returning the (stringified)
rows `execRes s`, or raising with text `execErr s`. -/
structure Oracle where
  intent : String → ModelOutcome
  gen : String → ModelOutcome
  schemaOk : Bool
  schemaErr : String
  dryRunOk : String → Bool
  execOk : String → Bool
  execRes : String → String
  execErr : String → String

/-- The three failure modes of `db.validate_sql`: `notSelect` — the
`ValueError` raised when the normalized text does not start with `select`;
`multiStmt` — the `ValueError` raised when a `;` occurs before the final
character; `dryRunFail` — the store error propagated from the `EXPLAIN`
dry-run. -/
inductive ValidationError where
  | notSelect
  | multiStmt
  | dryRunFail
deriving DecidableEq, Repr

/-- Embedding of `db.validate_sql` (src/db.py lines 119-146) together with
the store round-trips it performs. `pyLower (pyStrip sql)` models
`sql.strip().lower()`; `List.isPrefixOf` models the startswith check;
`t.data.dropLast.contains ';'` models `';' in sql_stripped[:-1]` (Python
slicing drops exactly the last character). The dry-run runs
`EXPLAIN {sql}` on the ORIGINAL text, so the `dryRun` event carries `sql`
unmodified. -/
def validate_sql_run (dryRunOk : String → Bool) (sql : String) :
    Except ValidationError Unit × List Ev :=
  let t := pyLower (pyStrip sql)
  if ¬ "select".data.isPrefixOf t.data then (.error .notSelect, [])
  else if t.data.dropLast.contains ';' then (.error .multiStmt, [])
  else if dryRunOk sql then (.ok (), [.dryRun sql])
  else (.error .dryRunFail, [.dryRun sql])

/-- The result of `db.validate_sql`: `.ok ()` models returning `True`,
`.error e` models raising. -/
def validate_sql (dryRunOk : String → Bool) (sql : String) :
    Except ValidationError Unit :=
  (validate_sql_run dryRunOk sql).1

/-- Embedding of `GeminiLLMClient.detect_intent` (src/llm.py lines
113-126): the returned intent string and the events performed. On success
the model string is trimmed and lower-cased and an audit line is appended;
on a model failure or a malformed structured response the fixed string
`unknown` is returned and nothing is appended. -/
def detect_intent (o : Oracle) (q : String) : String × List Ev :=
  match o.intent q with
  | .ok s =>
    (pyLower (pyStrip s), [.modelIntent q, .auditIntent q (pyLower (pyStrip s))])
  | .malformed => ("unknown", [.modelIntent q])
  | .err => ("unknown", [.modelIntent q])

/-- Embedding of `GeminiLLMClient.generate_sql` (src/llm.py lines 97-111):
the returned statement (`none` models raising to the caller) and the
events performed. The schema fetch (`get_table_schema_str`, line 101) sits
OUTSIDE the try block, so its failure propagates; inside the try, a model
failure or malformed response yields the fallback `SELECT 1` with no audit
append, while success returns the trimmed model string and appends an
audit line. -/
def generate_sql (o : Oracle) (q : String) : Option String × List Ev :=
  if o.schemaOk then
    match o.gen q with
    | .ok s => (some (pyStrip s), [.schemaFetch, .modelGen q, .auditSql q (pyStrip s)])
    | .malformed => (some "SELECT 1", [.schemaFetch, .modelGen q])
    | .err => (some "SELECT 1", [.schemaFetch, .modelGen q])
  else (none, [.schemaFetch])

/-- The tail of the `sql` branch of `cli.ask` after the SQL has been
echoed (src/cli.py lines 53-59): validate the candidate, echoing the fixed
invalid-SQL message if validation raises; otherwise execute it and echo
`Результат: {result}` on success, or the generic handler message if
`query_db` raises. -/
def runSqlAsk (o : Oracle) (sql : String) : List Ev :=
  match validate_sql_run o.dryRunOk sql with
  | (.error _, ev) => ev ++ [.out .invalidSqlMsg]
  | (.ok _, ev) =>
    ev ++ .exec sql ::
      (if o.execOk sql then [.out (.resultText (o.execRes sql))]
       else [.out (.errorMsg (o.execErr sql))])

/-- The tail of the `sql` branch of `cli.answer` (src/cli.py lines 88-94):
identical to the `ask` tail except the success echo is `Ответ: {result}`. -/
def runSqlAnswer (o : Oracle) (sql : String) : List Ev :=
  match validate_sql_run o.dryRunOk sql with
  | (.error _, ev) => ev ++ [.out .invalidSqlMsg]
  | (.ok _, ev) =>
    ev ++ .exec sql ::
      (if o.execOk sql then [.out (.answerText (o.execRes sql))]
       else [.out (.errorMsg (o.execErr sql))])

/-- Embedding of the `cli.ask` entry point (src/cli.py lines 35-68) as its
event trace. The blank check (`not question.strip()`) short-circuits before
any model call; intent `sql` generates a statement, echoes `SQL: {sql}`,
then validates and executes; the three other intent branches echo their
canned message. A raise from `generate_sql` (schema fetch failure) is
caught by the outer handler, which echoes `Ошибка: {e}`. -/
def ask (o : Oracle) (q : String) : List Ev :=
  if pyStrip q = "" then [.out .emptyMsg]
  else
    (detect_intent o q).2 ++
      (if (detect_intent o q).1 = "sql" then
        (generate_sql o q).2 ++
          (match (generate_sql o q).1 with
           | none => [.out (.errorMsg o.schemaErr)]
           | some sql => .out (.sqlText sql) :: runSqlAsk o sql)
      else if (detect_intent o q).1 = "smalltalk" then [.out .informalMsg]
      else if (detect_intent o q).1 = "help" then [.out .helpMsg]
      else [.out .unknownMsg])

/-- Embedding of the `cli.answer` entry point (src/cli.py lines 71-103):
identical to `ask` except that the generated SQL text is never echoed and
the result echo is `Ответ: {result}`. -/
def answer (o : Oracle) (q : String) : List Ev :=
  if pyStrip q = "" then [.out .emptyMsg]
  else
    (detect_intent o q).2 ++
      (if (detect_intent o q).1 = "sql" then
        (generate_sql o q).2 ++
          (match (generate_sql o q).1 with
           | none => [.out (.errorMsg o.schemaErr)]
           | some sql => runSqlAnswer o sql)
      else if (detect_intent o q).1 = "smalltalk" then [.out .informalMsg]
      else if (detect_intent o q).1 = "help" then [.out .helpMsg]
      else [.out .unknownMsg])

/-- The fixed question list of the `cli.demo` entry point
(src/cli.py lines 111-118). -/
def demoQuestions : List String :=
  ["Насколько выше доход у фрилансеров, принимающих оплату в криптовалюте, по сравнению с другими способами оплаты?",
   "Как распределяется доход фрилансеров в зависимости от региона проживания?",
   "Какой процент фрилансеров, считающих себя экспертами, выполнил менее 100 проектов?",
   "Средний рейтинг клиентов для проектов длительностью более 30 дней?",
   "Сколько фрилансеров были повторно наняты?",
   "Привет, как дела?",
   "Как пользоваться этой системой?",
   "Сколько будет два плюс два?",
   "Расскажи анекдот.",
   "Помоги с командой для запуска."]

/-- One iteration of the loop in `cli.demo` (src/cli.py lines 120-136):
echo the question, classify it, and on intent `sql` generate a statement
and pass it straight to `query_db` — `demo` never calls `validate_sql`.
(The demo echoes append a trailing newline to the shared message texts,
which the event constructors do not track.) -/
def demoStep (o : Oracle) (q : String) : List Ev :=
  .out (.questionText q) ::
    ((detect_intent o q).2 ++
       (if (detect_intent o q).1 = "sql" then
         (generate_sql o q).2 ++
           (match (generate_sql o q).1 with
            | none => [.out (.errorMsg o.schemaErr)]
            | some sql =>
              .exec sql ::
                (if o.execOk sql then [.out (.answerText (o.execRes sql))]
                 else [.out (.errorMsg (o.execErr sql))]))
       else if (detect_intent o q).1 = "smalltalk" then [.out .informalMsg]
       else if (detect_intent o q).1 = "help" then [.out .helpMsg]
       else [.out .unknownMsg]))

/-- Embedding of the `cli.demo` entry point (src/cli.py lines 106-136):
the concatenated traces of the loop body over the fixed question list. -/
def demo (o : Oracle) : List Ev :=
  (demoQuestions.map (demoStep o)).flatten

/-- A concrete oracle for instantiations: the intent call yields `i`, the
generation call yields `g`, and all store interactions succeed. -/
def mkOracle (i g : ModelOutcome) : Oracle :=
  { intent := fun _ => i
    gen := fun _ => g
    schemaOk := true
    schemaErr := "schema unavailable"
    dryRunOk := fun _ => true
    execOk := fun _ => true
    execRes := fun _ => "rows"
    execErr := fun _ => "exec failed" }

/-- `mkOracle` with a failing schema fetch. -/
def mkOracleNoSchema (i g : ModelOutcome) : Oracle :=
  { mkOracle i g with schemaOk := false }

/-- C5: a candidate whose trimmed, lower-cased text does not start with
`select` (including empty and whitespace-only candidates) is rejected by
`validate_sql` with the keyword-rule error, never accepted. -/
theorem validate_rejects_non_select (dr : String → Bool) (sql : String)
    (h : "select".data.isPrefixOf (pyLower (pyStrip sql)).data = false) :
    validate_sql dr sql = .error .notSelect := by
  simp [validate_sql, validate_sql_run, h]

/-- Witness for C5 at a DML statement and at a whitespace-only one. -/
theorem validate_rejects_non_select_witness :
    validate_sql (fun _ => true) "DROP TABLE freelancer_earnings" =
        .error .notSelect ∧
      validate_sql (fun _ => true) "   " = .error .notSelect :=
  ⟨validate_rejects_non_select _ _ (by decide),
   validate_rejects_non_select _ _ (by decide)⟩

/-- C6: if the separator `;` occurs (after trimming) anywhere other than
as the final character, `validate_sql` rejects the candidate; if no such
occurrence exists — in particular for a single trailing `;` — the
separator rule never fires (the candidate may still fail other rules). -/
theorem validate_separator_rule (dr : String → Bool) (sql : String) :
    ((pyLower (pyStrip sql)).data.dropLast.contains ';' = true →
        ∃ e, validate_sql dr sql = .error e) ∧
      ((pyLower (pyStrip sql)).data.dropLast.contains ';' = false →
        validate_sql dr sql ≠ .error .multiStmt) := by
  constructor
  · intro h
    have h' : ';' ∈ (pyLower (pyStrip sql)).data.dropLast := by simpa using h
    unfold validate_sql validate_sql_run
    by_cases hs : "select".data.isPrefixOf (pyLower (pyStrip sql)).data
    · exact ⟨.multiStmt, by simp [hs, h']⟩
    · exact ⟨.notSelect, by simp [hs]⟩
  · intro h
    have h' : ';' ∉ (pyLower (pyStrip sql)).data.dropLast := by simpa using h
    unfold validate_sql validate_sql_run
    by_cases hs : "select".data.isPrefixOf (pyLower (pyStrip sql)).data
    · by_cases hd : dr sql <;> simp [hs, h', hd]
    · simp [hs]

/-- Witness for C6: a stacked statement is rejected, and a statement with
a single trailing separator does not trip the separator rule (it
validates). -/
theorem validate_separator_rule_witness :
    (∃ e, validate_sql (fun _ => true)
        "SELECT 1; DELETE FROM freelancer_earnings" = .error e) ∧
      validate_sql (fun _ => true) "SELECT 1;" ≠ .error .multiStmt :=
  ⟨(validate_separator_rule (fun _ => true)
      "SELECT 1; DELETE FROM freelancer_earnings").1 (by decide),
   (validate_separator_rule (fun _ => true) "SELECT 1;").2 (by decide)⟩

/-- C7: a candidate that passes the keyword rule but violates the
multi-statement separator rule fails on that textual rule with no store
round-trip: `validate_sql_run` returns the separator error and an empty
event list (no `dryRun` event). -/
theorem multi_statement_fails_before_dry_run (dr : String → Bool)
    (sql : String)
    (h1 : "select".data.isPrefixOf (pyLower (pyStrip sql)).data = true)
    (h2 : (pyLower (pyStrip sql)).data.dropLast.contains ';' = true) :
    validate_sql_run dr sql = (.error .multiStmt, []) := by
  have h2' : ';' ∈ (pyLower (pyStrip sql)).data.dropLast := by simpa using h2
  simp [validate_sql_run, h1, h2']

/-- Witness for C7 at the statement-stacking example of the spec, against
a store whose dry-run would accept anything: the store is not consulted. -/
theorem multi_statement_fails_before_dry_run_witness :
    validate_sql_run (fun _ => true)
        "SELECT * FROM freelancer_earnings; DROP TABLE freelancer_earnings" =
      (.error .multiStmt, []) :=
  multi_statement_fails_before_dry_run _ _ (by decide) (by decide)

/-- The events of `detect_intent` are the model call and possibly an
audit append — never an execution. -/
theorem exec_not_mem_detect (o : Oracle) (q s : String) :
    Ev.exec s ∉ (detect_intent o q).2 := by
  cases hi : o.intent q <;> simp [detect_intent, hi]

/-- The events of `detect_intent` never include a dry-run. -/
theorem dryRun_not_mem_detect (o : Oracle) (q s : String) :
    Ev.dryRun s ∉ (detect_intent o q).2 := by
  cases hi : o.intent q <;> simp [detect_intent, hi]

/-- The events of `detect_intent` never include an echo of SQL text. -/
theorem sqlText_not_mem_detect (o : Oracle) (q s : String) :
    Ev.out (Out.sqlText s) ∉ (detect_intent o q).2 := by
  cases hi : o.intent q <;> simp [detect_intent, hi]

/-- The events of `generate_sql` are the schema fetch, the model call and
possibly an audit append — never an execution. -/
theorem exec_not_mem_gen (o : Oracle) (q s : String) :
    Ev.exec s ∉ (generate_sql o q).2 := by
  cases h : o.schemaOk <;> cases hg : o.gen q <;> simp [generate_sql, h, hg]

/-- The events of `generate_sql` never include a dry-run. -/
theorem dryRun_not_mem_gen (o : Oracle) (q s : String) :
    Ev.dryRun s ∉ (generate_sql o q).2 := by
  cases h : o.schemaOk <;> cases hg : o.gen q <;> simp [generate_sql, h, hg]

/-- The events of `generate_sql` never include an echo of SQL text. -/
theorem sqlText_not_mem_gen (o : Oracle) (q s : String) :
    Ev.out (Out.sqlText s) ∉ (generate_sql o q).2 := by
  cases h : o.schemaOk <;> cases hg : o.gen q <;> simp [generate_sql, h, hg]

/-- The validator performs either no store round-trip (textual rejection)
or exactly the one dry-run on the original text. -/
theorem valrun_snd_cases (dr : String → Bool) (sql : String) :
    (validate_sql_run dr sql).2 = [] ∨
      (validate_sql_run dr sql).2 = [.dryRun sql] := by
  unfold validate_sql_run
  by_cases h1 : "select".data.isPrefixOf (pyLower (pyStrip sql)).data
  · by_cases h2 : ';' ∈ (pyLower (pyStrip sql)).data.dropLast
    · simp [h1, h2]
    · by_cases h3 : dr sql <;> simp [h1, h2, h3]
  · simp [h1]

/-- An execution event occurs in the `ask` tail exactly for the validated
candidate itself. -/
theorem exec_mem_runSqlAsk (o : Oracle) (sql s : String) :
    Ev.exec s ∈ runSqlAsk o sql ↔
      s = sql ∧ validate_sql o.dryRunOk sql = .ok () := by
  unfold runSqlAsk
  split
  next e ev heq =>
    have hev : ev = [] ∨ ev = [.dryRun sql] := by
      have h := valrun_snd_cases o.dryRunOk sql
      rw [heq] at h; exact h
    rcases hev with h | h <;> subst h <;>
      simp [validate_sql, heq]
  next u ev heq =>
    have hev : ev = [] ∨ ev = [.dryRun sql] := by
      have h := valrun_snd_cases o.dryRunOk sql
      rw [heq] at h; exact h
    rcases hev with h | h <;> subst h <;>
      by_cases he : o.execOk sql <;> simp [validate_sql, heq, he]

/-- An execution event occurs in the `answer` tail exactly for the
validated candidate itself. -/
theorem exec_mem_runSqlAnswer (o : Oracle) (sql s : String) :
    Ev.exec s ∈ runSqlAnswer o sql ↔
      s = sql ∧ validate_sql o.dryRunOk sql = .ok () := by
  unfold runSqlAnswer
  split
  next e ev heq =>
    have hev : ev = [] ∨ ev = [.dryRun sql] := by
      have h := valrun_snd_cases o.dryRunOk sql
      rw [heq] at h; exact h
    rcases hev with h | h <;> subst h <;>
      simp [validate_sql, heq]
  next u ev heq =>
    have hev : ev = [] ∨ ev = [.dryRun sql] := by
      have h := valrun_snd_cases o.dryRunOk sql
      rw [heq] at h; exact h
    rcases hev with h | h <;> subst h <;>
      by_cases he : o.execOk sql <;> simp [validate_sql, heq, he]

/-- Complete characterization of execution in `ask`: a statement reaches
the store iff the question was non-blank, classified `sql`, the generator
returned exactly that statement (no raise), and the statement passed
`validate_sql` whole. -/
theorem exec_mem_ask (o : Oracle) (q s : String) :
    Ev.exec s ∈ ask o q ↔
      pyStrip q ≠ "" ∧ (detect_intent o q).1 = "sql" ∧
        (generate_sql o q).1 = some s ∧
        validate_sql o.dryRunOk s = .ok () := by
  unfold ask
  by_cases hb : pyStrip q = ""
  · simp [hb]
  · rw [if_neg hb]
    by_cases hi : (detect_intent o q).1 = "sql"
    · rw [if_pos hi]
      rcases hg : (generate_sql o q).1 with _ | sql
      · simp [hg, hb, hi, exec_not_mem_detect, exec_not_mem_gen]
      · simp [hg, hb, hi, exec_not_mem_detect, exec_not_mem_gen,
          exec_mem_runSqlAsk, eq_comm]
        rintro rfl
        rfl
    · rw [if_neg hi]
      split_ifs <;> simp [hb, hi, exec_not_mem_detect]

/-- Complete characterization of execution in `answer`, mirroring
`exec_mem_ask`. -/
theorem exec_mem_answer (o : Oracle) (q s : String) :
    Ev.exec s ∈ answer o q ↔
      pyStrip q ≠ "" ∧ (detect_intent o q).1 = "sql" ∧
        (generate_sql o q).1 = some s ∧
        validate_sql o.dryRunOk s = .ok () := by
  unfold answer
  by_cases hb : pyStrip q = ""
  · simp [hb]
  · rw [if_neg hb]
    by_cases hi : (detect_intent o q).1 = "sql"
    · rw [if_pos hi]
      rcases hg : (generate_sql o q).1 with _ | sql
      · simp [hg, hb, hi, exec_not_mem_detect, exec_not_mem_gen]
      · simp [hg, hb, hi, exec_not_mem_detect, exec_not_mem_gen,
          exec_mem_runSqlAnswer, eq_comm]
        rintro rfl
        rfl
    · rw [if_neg hi]
      split_ifs <;> simp [hb, hi, exec_not_mem_detect]

/-- C2 counterexample: when the schema fetch fails, `generate_sql` raises
to its caller (returns no statement at all) instead of falling back to
`SELECT 1` — the schema fetch sits outside the try block guarding the
model call. -/
theorem generate_sql_raises_on_schema_failure :
    (generate_sql (mkOracleNoSchema (.ok "sql") (.ok "SELECT 1")) "q").1 =
      none := rfl

/-- C2 (amended): when the schema lookup succeeds, `generate_sql` never
raises — it always returns some statement, and on a model error or a
malformed structured response that statement is the fixed fallback
`SELECT 1`. -/
theorem generate_sql_total_when_schema_ok (o : Oracle) (q : String)
    (h : o.schemaOk = true) :
    ((generate_sql o q).1).isSome = true ∧
      (o.gen q = .malformed ∨ o.gen q = .err →
        (generate_sql o q).1 = some "SELECT 1") := by
  cases hg : o.gen q <;> simp [generate_sql, h, hg]

/-- Witness for C2 (amended) at a failing model call. -/
theorem generate_sql_total_when_schema_ok_witness :
    ((generate_sql (mkOracle (.ok "sql") .err) "q").1).isSome = true ∧
      (generate_sql (mkOracle (.ok "sql") .err) "q").1 = some "SELECT 1" :=
  ⟨(generate_sql_total_when_schema_ok (mkOracle (.ok "sql") .err) "q" rfl).1,
   (generate_sql_total_when_schema_ok (mkOracle (.ok "sql") .err) "q" rfl).2
     (Or.inr rfl)⟩

/-- C3 counterexample: on the fallback path (model error) `generate_sql`
returns `SELECT 1` but appends nothing to the audit log — the trace holds
only the schema fetch and the model call, no `auditSql` event. -/
theorem fallback_generation_not_audited :
    generate_sql (mkOracle (.ok "sql") .err) "q" =
        (some "SELECT 1", [.schemaFetch, .modelGen "q"]) ∧
      Ev.auditSql "q" "SELECT 1" ∉
        (generate_sql (mkOracle (.ok "sql") .err) "q").2 := by
  exact ⟨rfl, by decide⟩

/-- C3 (amended): a successful generation appends a record with the
question and the trimmed statement to the audit log, but the fallback
path appends nothing at all. -/
theorem generation_audit_on_success (o : Oracle) (q s : String)
    (h : o.schemaOk = true) :
    (o.gen q = .ok s →
        Ev.auditSql q (pyStrip s) ∈ (generate_sql o q).2) ∧
      (o.gen q = .malformed ∨ o.gen q = .err →
        ∀ a b, Ev.auditSql a b ∉ (generate_sql o q).2) := by
  cases hg : o.gen q <;> simp [generate_sql, h, hg]
  intro hs
  exact congrArg pyStrip hs.symm

/-- Witness for C3 (amended) at a successful generation. -/
theorem generation_audit_on_success_witness :
    Ev.auditSql "q" "SELECT 2" ∈
      (generate_sql (mkOracle (.ok "sql") (.ok " SELECT 2 ")) "q").2 := by
  have h :=
    (generation_audit_on_success (mkOracle (.ok "sql") (.ok " SELECT 2 "))
      "q" " SELECT 2 " rfl).1 rfl
  exact (show pyStrip " SELECT 2 " = "SELECT 2" by decide) ▸ h

/-- C4 counterexample: a successful model reply outside the enumeration is
returned as-is (trimmed, lower-cased) by `detect_intent`, not mapped to
`unknown`. -/
theorem detect_intent_out_of_enum_passthrough :
    (detect_intent (mkOracle (.ok " SQLZZ ") (.ok "SELECT 1")) "q").1 =
        "sqlzz" ∧
      "sqlzz" ∉ (["sql", "smalltalk", "help", "unknown"] : List String) := by
  exact ⟨by decide, by decide⟩

/-- C4 (amended): `detect_intent` never raises; a call failure or a
malformed structured response yields the fixed string `unknown`, while a
successful model reply is returned trimmed and lower-cased without being
checked against the enumeration. -/
theorem detect_intent_degrades (o : Oracle) (q : String) :
    (o.intent q = .malformed ∨ o.intent q = .err →
        (detect_intent o q).1 = "unknown") ∧
      (∀ s, o.intent q = .ok s →
        (detect_intent o q).1 = pyLower (pyStrip s)) := by
  cases hi : o.intent q <;> simp [detect_intent, hi]

/-- Witness for C4 (amended) at a failing intent call. -/
theorem detect_intent_degrades_witness :
    (detect_intent (mkOracle .err (.ok "SELECT 1")) "q").1 = "unknown" :=
  (detect_intent_degrades (mkOracle .err (.ok "SELECT 1")) "q").1
    (Or.inr rfl)

/-- The `answer` tail never echoes the generated SQL text. -/
theorem sqlText_not_mem_runSqlAnswer (o : Oracle) (sql t : String) :
    Ev.out (Out.sqlText t) ∉ runSqlAnswer o sql := by
  unfold runSqlAnswer
  split
  next e ev heq =>
    have hev := valrun_snd_cases o.dryRunOk sql
    rw [heq] at hev
    rcases hev with h | h <;> subst h <;> simp
  next u ev heq =>
    have hev := valrun_snd_cases o.dryRunOk sql
    rw [heq] at hev
    rcases hev with h | h <;> subst h <;>
      by_cases he : o.execOk sql <;> simp [he]

/-- C1 counterexample: the `demo` entry point passes the generated
statement straight to the store without calling `validate_sql` — here it
executes `DROP TABLE freelancer_earnings`, a statement the Safety
Validator rejects. The no-bypass invariant fails for `demo`. -/
theorem demo_executes_unvalidated :
    Ev.exec "DROP TABLE freelancer_earnings" ∈
        demo (mkOracle (.ok "sql") (.ok "DROP TABLE freelancer_earnings")) ∧
      validate_sql
          (mkOracle (.ok "sql")
            (.ok "DROP TABLE freelancer_earnings")).dryRunOk
          "DROP TABLE freelancer_earnings" = .error .notSelect := by
  exact ⟨by decide, rfl⟩

/-- C1 (amended): in the `ask` and `answer` entry points a candidate
statement reaches the store only if it passed every rule of
`validate_sql`; the `demo` entry point has no such guarantee, since it
executes generated statements without validation. -/
theorem ask_answer_execute_only_validated (o : Oracle) (q s : String)
    (h : Ev.exec s ∈ ask o q ∨ Ev.exec s ∈ answer o q) :
    validate_sql o.dryRunOk s = .ok () := by
  rcases h with h | h
  · exact ((exec_mem_ask o q s).1 h).2.2.2
  · exact ((exec_mem_answer o q s).1 h).2.2.2

/-- Witness for C1 (amended): a concrete `ask` run that executes a
statement, which indeed validated. -/
theorem ask_answer_execute_only_validated_witness :
    validate_sql
        (mkOracle (.ok "sql") (.ok "SELECT 1")).dryRunOk "SELECT 1" =
      .ok () :=
  ask_answer_execute_only_validated (mkOracle (.ok "sql") (.ok "SELECT 1"))
    "Вопрос по данным" "SELECT 1" (Or.inl (by decide))

/-- C8: the text handed to the store by `ask` or `answer` is byte-for-byte
the candidate returned by the generator — the validator hands back no
normalized text, it only inspects a trimmed, lower-cased local copy. -/
theorem executed_text_is_candidate (o : Oracle) (q s : String) :
    (Ev.exec s ∈ ask o q → (generate_sql o q).1 = some s) ∧
      (Ev.exec s ∈ answer o q → (generate_sql o q).1 = some s) :=
  ⟨fun h => ((exec_mem_ask o q s).1 h).2.2.1,
   fun h => ((exec_mem_answer o q s).1 h).2.2.1⟩

/-- Witness for C8: a mixed-case candidate is executed exactly as
generated, not in its lower-cased inspection form. -/
theorem executed_text_is_candidate_witness :
    Ev.exec "SELECT Job_Category FROM freelancer_earnings" ∈
        ask
          (mkOracle (.ok "sql")
            (.ok " SELECT Job_Category FROM freelancer_earnings "))
          "Категория работы?" ∧
      (generate_sql
            (mkOracle (.ok "sql")
              (.ok " SELECT Job_Category FROM freelancer_earnings "))
            "Категория работы?").1 =
        some "SELECT Job_Category FROM freelancer_earnings" :=
  ⟨by decide,
   (executed_text_is_candidate
       (mkOracle (.ok "sql")
         (.ok " SELECT Job_Category FROM freelancer_earnings "))
       "Категория работы?" "SELECT Job_Category FROM freelancer_earnings").1
     (by decide)⟩

/-- C9: a blank (empty or whitespace-only) question makes both `ask` and
`answer` emit exactly the blank-input message, with zero model calls and
zero store calls — the blank check fires before classification. -/
theorem blank_question_short_circuits (o : Oracle) (q : String)
    (h : pyStrip q = "") :
    (ask o q = [.out .emptyMsg] ∧ answer o q = [.out .emptyMsg]) ∧
      (∀ e ∈ ask o q, e.isExternalCall = false) ∧
      (∀ e ∈ answer o q, e.isExternalCall = false) := by
  refine ⟨⟨?_, ?_⟩, ?_, ?_⟩ <;>
    simp [ask, answer, h, Ev.isExternalCall]

/-- Witness for C9 at a whitespace-only question. -/
theorem blank_question_short_circuits_witness :
    ask (mkOracle (.ok "sql") (.ok "SELECT 1")) " \t " = [.out .emptyMsg] :=
  ((blank_question_short_circuits (mkOracle (.ok "sql") (.ok "SELECT 1"))
      " \t " (by decide)).1).1

/-- C10: when `ask` classifies a question as `sql` and the generator
returns a candidate, the candidate text is echoed (`SQL: ...`) before any
validator or executor store round-trip — hence also when validation then
rejects it; `answer` never echoes the generated SQL text, for any oracle
and question. -/
theorem ask_prints_sql_before_validation (o : Oracle) (q sql : String)
    (hb : pyStrip q ≠ "") (hi : (detect_intent o q).1 = "sql")
    (hg : (generate_sql o q).1 = some sql) :
    (∃ pre post, ask o q = pre ++ Ev.out (Out.sqlText sql) :: post ∧
        ∀ t, Ev.dryRun t ∉ pre ∧ Ev.exec t ∉ pre) ∧
      ∀ (p : Oracle) (r t : String), Ev.out (Out.sqlText t) ∉ answer p r := by
  constructor
  · refine ⟨(detect_intent o q).2 ++ (generate_sql o q).2,
      runSqlAsk o sql, ?_, ?_⟩
    · unfold ask
      rw [if_neg hb, if_pos hi, hg]
      simp
    · intro t
      constructor
      · intro hm
        rcases List.mem_append.mp hm with hm | hm
        · exact dryRun_not_mem_detect o q t hm
        · exact dryRun_not_mem_gen o q t hm
      · intro hm
        rcases List.mem_append.mp hm with hm | hm
        · exact exec_not_mem_detect o q t hm
        · exact exec_not_mem_gen o q t hm
  · intro p r t
    unfold answer
    by_cases hb' : pyStrip r = ""
    · simp [hb']
    · rw [if_neg hb']
      by_cases hi' : (detect_intent p r).1 = "sql"
      · rw [if_pos hi']
        rcases hg' : (generate_sql p r).1 with _ | sql'
        · simp [hg', sqlText_not_mem_detect, sqlText_not_mem_gen]
        · simp [hg', sqlText_not_mem_detect, sqlText_not_mem_gen,
            sqlText_not_mem_runSqlAnswer]
      · rw [if_neg hi']
        split_ifs <;> simp [sqlText_not_mem_detect]

/-- Witness for C10: the raw candidate `DROP TABLE freelancer_earnings` is
echoed by `ask` before validation, which then rejects it. -/
theorem ask_prints_sql_before_validation_witness :
    (∃ pre post,
        ask (mkOracle (.ok "sql") (.ok "DROP TABLE freelancer_earnings"))
            "Удали таблицу" =
          pre ++ Ev.out (Out.sqlText "DROP TABLE freelancer_earnings")
              :: post ∧
          ∀ t, Ev.dryRun t ∉ pre ∧ Ev.exec t ∉ pre) ∧
      ∀ (p : Oracle) (r t : String),
        Ev.out (Out.sqlText t) ∉ answer p r :=
  ask_prints_sql_before_validation
    (mkOracle (.ok "sql") (.ok "DROP TABLE freelancer_earnings"))
    "Удали таблицу" "DROP TABLE freelancer_earnings"
    (by decide) (by decide) (by decide)

end Pipeline
